import Mathlib

/-!
Shallow embedding of the semantic_proximity repository
(src/app.py and src/relevance_scorer.py).

Python strings are modelled as `List Char`; Python floats (scores and
keyphrase weights) as rationals `ℚ`.  The external models (the
SentenceTransformer embedding model and the KeyBERT keyphrase extractor)
are modelled as an abstract `Provider` record of total functions, since
their internals are out of scope; the repository's own logic is
translated line by line from the source.
-/

/-- Python whitespace characters removed by `str.strip()` (ASCII range). -/
def pyIsSpace (c : Char) : Bool :=
  c = ' ' || c = '\t' || c = '\n' || c = '\r' || c = '\x0b' || c = '\x0c'

/-- Python `str.strip()`: remove leading and trailing whitespace. -/
def pyStrip (s : List Char) : List Char :=
  ((s.dropWhile pyIsSpace).reverse.dropWhile pyIsSpace).reverse

/-- Python `str.lower()`, character by character (ASCII model). -/
def pyLower (s : List Char) : List Char :=
  s.map Char.toLower

/-- Whether the first list is an initial segment of the second. -/
def startsWithList : List Char → List Char → Bool
  | [], _ => true
  | _ :: _, [] => false
  | a :: as, b :: bs => a == b && startsWithList as bs

/-- Python substring test `needle in haystack`: a contiguous occurrence
anywhere in the haystack (the empty needle occurs in every string). -/
def pyIn (needle : List Char) : List Char → Bool
  | [] => needle.isEmpty
  | b :: bs => startsWithList needle (b :: bs) || pyIn needle bs

/-- The external model capabilities used by the app: `model.encode`,
`model.similarity` (its scalar entry, the code's `[0][0]` / `.item()`),
and `kw_model.extract_keywords` as ranked (phrase, weight) pairs. -/
structure Provider where
  encode : List Char → List ℚ
  similarity : List ℚ → List ℚ → ℚ
  extractKeyphrases : List Char → Nat → List (List Char × ℚ)

/-- src/app.py lines 48-50: `extract_keywords` returns `[]` for falsy
(empty) text without calling the model, otherwise delegates to KeyBERT. -/
def extract_keywords (P : Provider) (text : List Char) (top_n : Nat) :
    List (List Char × ℚ) :=
  if text = [] then [] else P.extractKeyphrases text top_n

/-- src/app.py line 146: `comp_kws = [kw[0] for kw in extract_keywords(competitor_text, top_n=25)]`. -/
def comp_kws (P : Provider) (competitor_text : List Char) : List (List Char) :=
  (extract_keywords P competitor_text 25).map Prod.fst

/-- src/app.py line 147: `my_kws = [kw[0] for kw in extract_keywords(my_content_final, top_n=25)]`
(computed but never used afterwards). -/
def my_kws (P : Provider) (my_content_final : List Char) : List (List Char) :=
  (extract_keywords P my_content_final 25).map Prod.fst

/-- src/app.py line 151: `missing_kws = [kw for kw in comp_kws if kw.lower() not in my_content_final.lower()]`. -/
def missing_kws (P : Provider) (competitor_text my_content_final : List Char) :
    List (List Char) :=
  (comp_kws P competitor_text).filter
    (fun kw => !(pyIn (pyLower kw) (pyLower my_content_final)))

/-- src/app.py line 169: `shared = [kw for kw in comp_kws if kw.lower() in my_content_final.lower()]`. -/
def shared (P : Provider) (competitor_text my_content_final : List Char) :
    List (List Char) :=
  (comp_kws P competitor_text).filter
    (fun kw => pyIn (pyLower kw) (pyLower my_content_final))

/-- The qualitative relevance label. -/
inductive ScoreBand where
  | Strong
  | Moderate
  | Low
deriving DecidableEq, Repr

/-- src/app.py lines 132-137 (same thresholds in src/relevance_scorer.py
lines 37-42): `if score > 0.60` Strong, `elif score > 0.40` Moderate,
else Low. -/
def band (score : ℚ) : ScoreBand :=
  if score > 0.60 then .Strong
  else if score > 0.40 then .Moderate
  else .Low

/-- src/app.py lines 119-121: encode the keyword and the content, take the
model's similarity scalar as the score. -/
def score (P : Provider) (target_keyword my_content_final : List Char) : ℚ :=
  P.similarity (P.encode target_keyword) (P.encode my_content_final)

/-- The gap-analysis output: missing and shared competitor keyphrases
(src/app.py lines 151 and 169). -/
structure GapReport where
  missing : List (List Char)
  shared : List (List Char)
deriving DecidableEq, Repr

/-- The combined audit output: the score, its band, and the gap report
when a competitor text was supplied. -/
structure AuditResult where
  score : ℚ
  band : ScoreBand
  gap : Option GapReport
deriving DecidableEq, Repr

/-- The two validation failures of src/app.py lines 112-115. -/
inductive AuditError where
  | missingTopic
  | shortDocument
deriving DecidableEq, Repr

/-- src/app.py lines 111-173, the analyze-button handler as a function of
its inputs and the provider: validate topic and document, score, band,
and run the gap analysis only when competitor text is present. -/
def run_audit (P : Provider)
    (target_keyword my_content_final competitor_text : List Char) :
    Except AuditError AuditResult :=
  if target_keyword = [] then .error .missingTopic
  else if my_content_final = [] ∨ (pyStrip my_content_final).length < 50 then
    .error .shortDocument
  else
    .ok ⟨score P target_keyword my_content_final,
         band (score P target_keyword my_content_final),
         if competitor_text = [] then none
         else some ⟨missing_kws P competitor_text my_content_final,
                    shared P competitor_text my_content_final⟩⟩

/-- A call to one of the external models. -/
inductive ProviderCall where
  | encode (text : List Char)
  | similarity
  | extract (text : List Char) (top_n : Nat)
deriving DecidableEq, Repr

/-- The extractor calls issued by `extract_keywords` (src/app.py line 49
short-circuits empty text before reaching the model). -/
def extract_keywords_calls (text : List Char) (top_n : Nat) : List ProviderCall :=
  if text = [] then [] else [.extract text top_n]

/-- The sequence of external-model calls made by the analyze-button handler
(src/app.py lines 111-170): none on validation failure; otherwise two
encodes and a similarity (lines 119-121), then, when competitor text is
present, keyphrase extraction on the competitor text and on the user text
(lines 146-147). -/
def audit_calls (target_keyword my_content_final competitor_text : List Char) :
    List ProviderCall :=
  if target_keyword = [] then []
  else if my_content_final = [] ∨ (pyStrip my_content_final).length < 50 then []
  else
    [.encode target_keyword, .encode my_content_final, .similarity] ++
    (if competitor_text = [] then []
     else extract_keywords_calls competitor_text 25 ++
          extract_keywords_calls my_content_final 25)

/-- The Streamlit session state holding the two fetched texts
(src/app.py lines 15-18). -/
structure SessionState where
  my_text : List Char
  competitor_text : List Char
deriving DecidableEq, Repr

/-- src/app.py lines 31-46: `fetch_url_content` returns the extracted text,
or `None` when any exception occurs during fetching/parsing.  The network
and HTML parsing are external, so their outcome (exception message or
extracted text) is the input. -/
def fetch_url_content (outcome : Except (List Char) (List Char)) :
    Option (List Char) :=
  match outcome with
  | .error _ => none
  | .ok extracted_text => some extracted_text

/-- src/app.py lines 68-75: the Fetch-Competitor button stores the fetched
text only when the URL is non-empty and the fetch returned truthy
(non-None, non-empty) text. -/
def fetch_competitor_click (comp_url : List Char)
    (outcome : Except (List Char) (List Char)) (st : SessionState) :
    SessionState :=
  if comp_url = [] then st
  else
    match fetch_url_content outcome with
    | none => st
    | some text => if text = [] then st else { st with competitor_text := text }

/-- src/app.py lines 86-93: the Fetch-My-Page button, same policy for
`my_text`. -/
def fetch_my_page_click (my_url : List Char)
    (outcome : Except (List Char) (List Char)) (st : SessionState) :
    SessionState :=
  if my_url = [] then st
  else
    match fetch_url_content outcome with
    | none => st
    | some text => if text = [] then st else { st with my_text := text }

/-- A provider whose extractor always returns the given ranked list; used
to instantiate theorems at concrete inputs. -/
def constProvider (kws : List (List Char × ℚ)) : Provider :=
  ⟨fun _ => [], fun _ _ => 0, fun _ _ => kws⟩

/-- The spec's worked example user document (51+ characters). -/
def exampleUserDoc : List Char :=
  "Our cloud storage service offers encrypted backups today.".toList

/-- A concrete competitor document used to instantiate theorems. -/
def exampleCompetitorDoc : List Char :=
  "The competitor covers data redundancy and cloud storage topics extensively.".toList

/-- A provider returning the spec example's competitor keyphrases. -/
def exampleCompProvider : Provider :=
  constProvider [("cloud storage".toList, 0.9), ("encrypted backups".toList, 0.8),
                 ("data redundancy".toList, 0.7)]

example : (pyStrip exampleUserDoc).length = 57 := by decide
example : shared exampleCompProvider exampleCompetitorDoc exampleUserDoc =
    ["cloud storage".toList, "encrypted backups".toList] := by decide
example : missing_kws exampleCompProvider exampleCompetitorDoc exampleUserDoc =
    ["data redundancy".toList] := by decide
example : band 0.60 = ScoreBand.Moderate := by norm_num [band]
example : band 0.40 = ScoreBand.Low := by norm_num [band]
example : band 0.61 = ScoreBand.Strong := by norm_num [band]
example : band 0 = ScoreBand.Low := by norm_num [band]

/-- C1: for every provider and document pair, each extracted competitor
keyphrase is classified as shared exactly when its lowercasing occurs as a
literal substring of the lowercased user document, and as missing exactly
otherwise (src/app.py lines 151 and 169). -/
theorem gap_classification (P : Provider)
    (competitor_text my_content_final kw : List Char)
    (hkw : kw ∈ comp_kws P competitor_text) :
    (kw ∈ shared P competitor_text my_content_final ↔
      pyIn (pyLower kw) (pyLower my_content_final) = true) ∧
    (kw ∈ missing_kws P competitor_text my_content_final ↔
      pyIn (pyLower kw) (pyLower my_content_final) = false) := by
  constructor
  · simp [shared, List.mem_filter, hkw]
  · simp [missing_kws, List.mem_filter, hkw]

/-- Witness for C1 at the spec's worked example. -/
theorem gap_classification_witness :
    ("cloud storage".toList ∈ comp_kws exampleCompProvider exampleCompetitorDoc) ∧
    (("cloud storage".toList ∈
        shared exampleCompProvider exampleCompetitorDoc exampleUserDoc ↔
      pyIn (pyLower "cloud storage".toList) (pyLower exampleUserDoc) = true) ∧
     ("cloud storage".toList ∈
        missing_kws exampleCompProvider exampleCompetitorDoc exampleUserDoc ↔
      pyIn (pyLower "cloud storage".toList) (pyLower exampleUserDoc) = false)) :=
  ⟨by decide,
   gap_classification exampleCompProvider exampleCompetitorDoc exampleUserDoc
     "cloud storage".toList (by decide)⟩

/-- Occurrence counts in the two complementary filters add up to the
occurrence count in the original list. -/
theorem count_filter_split (p : List Char → Bool) (l : List (List Char))
    (a : List Char) :
    (l.filter fun x => !(p x)).count a + (l.filter p).count a = l.count a := by
  induction l with
  | nil => simp
  | cons b bs ih =>
    by_cases hb : p b
    · rw [List.filter_cons, List.filter_cons, if_neg (by simp [hb]),
        if_pos (by simp [hb]), List.count_cons, List.count_cons]
      omega
    · rw [List.filter_cons, List.filter_cons, if_pos (by simp [hb]),
        if_neg (by simp [hb]), List.count_cons, List.count_cons]
      omega

/-- C2: the gap analysis partitions the competitor keyphrase list: missing
and shared are order-preserving subsequences of `comp_kws`, every occurrence
of a keyphrase lands in exactly one of them (counts add up), and no
keyphrase value lies in both. -/
theorem gap_partition (P : Provider) (competitor_text my_content_final : List Char) :
    (missing_kws P competitor_text my_content_final).Sublist
      (comp_kws P competitor_text) ∧
    (shared P competitor_text my_content_final).Sublist
      (comp_kws P competitor_text) ∧
    (∀ kw, (missing_kws P competitor_text my_content_final).count kw +
        (shared P competitor_text my_content_final).count kw =
        (comp_kws P competitor_text).count kw) ∧
    List.Disjoint (missing_kws P competitor_text my_content_final)
      (shared P competitor_text my_content_final) := by
  refine ⟨List.filter_sublist _, List.filter_sublist _, ?_, ?_⟩
  · intro kw
    exact count_filter_split
      (fun k => pyIn (pyLower k) (pyLower my_content_final))
      (comp_kws P competitor_text) kw
  · intro kw hm hs
    rw [missing_kws, List.mem_filter] at hm
    rw [shared, List.mem_filter] at hs
    rw [hs.2] at hm
    exact absurd hm.2 (by simp)

/-- C3: banding policy: scores above 0.60 are Strong, scores in (0.40, 0.60]
are Moderate, scores at or below 0.40 are Low; in particular 0.60 itself is
Moderate and 0.40 itself is Low (src/app.py lines 132-137,
src/relevance_scorer.py lines 37-42). -/
theorem band_policy (s : ℚ) :
    (0.60 < s → band s = ScoreBand.Strong) ∧
    (0.40 < s ∧ s ≤ 0.60 → band s = ScoreBand.Moderate) ∧
    (s ≤ 0.40 → band s = ScoreBand.Low) ∧
    band 0.60 = ScoreBand.Moderate ∧ band 0.40 = ScoreBand.Low := by
  refine ⟨?_, ?_, ?_, by norm_num [band], by norm_num [band]⟩
  · intro h
    unfold band
    rw [if_pos h]
  · rintro ⟨h1, h2⟩
    unfold band
    rw [if_neg (not_lt.mpr h2), if_pos h1]
  · intro h
    have h1 : ¬ (0.60 : ℚ) < s := not_lt.mpr (h.trans (by norm_num))
    have h2 : ¬ (0.40 : ℚ) < s := not_lt.mpr h
    unfold band
    rw [if_neg h1, if_neg h2]

/-- Witness for C3 at scores 0.7, 0.5 and 0.3. -/
theorem band_policy_witness :
    band 0.7 = ScoreBand.Strong ∧ band 0.5 = ScoreBand.Moderate ∧
    band 0.3 = ScoreBand.Low :=
  ⟨(band_policy 0.7).1 (by norm_num),
   (band_policy 0.5).2.1 ⟨by norm_num, by norm_num⟩,
   (band_policy 0.3).2.2.1 (by norm_num)⟩

/-- Witness for C2 at the spec's worked example. -/
theorem gap_partition_witness :
    (missing_kws exampleCompProvider exampleCompetitorDoc exampleUserDoc).Sublist
      (comp_kws exampleCompProvider exampleCompetitorDoc) ∧
    (missing_kws exampleCompProvider exampleCompetitorDoc exampleUserDoc).count
        "cloud storage".toList +
      (shared exampleCompProvider exampleCompetitorDoc exampleUserDoc).count
        "cloud storage".toList =
      (comp_kws exampleCompProvider exampleCompetitorDoc).count
        "cloud storage".toList :=
  ⟨(gap_partition exampleCompProvider exampleCompetitorDoc exampleUserDoc).1,
   (gap_partition exampleCompProvider exampleCompetitorDoc
     exampleUserDoc).2.2.1 "cloud storage".toList⟩

/-- C4 counterexample: at a concrete valid input the analyze handler invokes
the keyphrase extractor on the user document as well (src/app.py line 147
computes `my_kws` from `my_content_final`), so the user document's own
keyphrases ARE extracted during the gap computation. -/
theorem user_extraction_cex :
    ProviderCall.extract exampleUserDoc 25 ∈
      audit_calls "seo".toList exampleUserDoc exampleCompetitorDoc := by
  decide

/-- C4 amended: keyphrases are extracted from both documents in the gap
block, but the user-document keyphrases are unused: the gap report depends
only on the provider's extraction of the competitor document (with the
containment test applied to the raw user document text). -/
theorem gap_independent_of_user_extraction (P Q : Provider)
    (competitor_text my_content_final : List Char)
    (h : P.extractKeyphrases competitor_text 25 =
         Q.extractKeyphrases competitor_text 25) :
    missing_kws P competitor_text my_content_final =
      missing_kws Q competitor_text my_content_final ∧
    shared P competitor_text my_content_final =
      shared Q competitor_text my_content_final := by
  have hc : comp_kws P competitor_text = comp_kws Q competitor_text := by
    unfold comp_kws extract_keywords
    rw [h]
  exact ⟨by unfold missing_kws; rw [hc], by unfold shared; rw [hc]⟩

/-- Two providers agreeing on the competitor document's keyphrases but
differing elsewhere (in particular on the user document). -/
def provA : Provider :=
  ⟨fun _ => [], fun _ _ => 0,
   fun t _ => if t = exampleCompetitorDoc then [("data redundancy".toList, 1)]
              else [("alpha".toList, 2)]⟩

/-- Second provider for the C4 witness, differing from `provA` away from the
competitor document. -/
def provB : Provider :=
  ⟨fun _ => [], fun _ _ => 0,
   fun t _ => if t = exampleCompetitorDoc then [("data redundancy".toList, 1)]
              else [("beta".toList, 3)]⟩

/-- Witness for the amended C4 at two concrete providers. -/
theorem gap_independent_of_user_extraction_witness :
    provA.extractKeyphrases exampleCompetitorDoc 25 =
      provB.extractKeyphrases exampleCompetitorDoc 25 ∧
    (missing_kws provA exampleCompetitorDoc exampleUserDoc =
       missing_kws provB exampleCompetitorDoc exampleUserDoc ∧
     shared provA exampleCompetitorDoc exampleUserDoc =
       shared provB exampleCompetitorDoc exampleUserDoc) := by
  have h : provA.extractKeyphrases exampleCompetitorDoc 25 =
      provB.extractKeyphrases exampleCompetitorDoc 25 := by
    simp [provA, provB]
  exact ⟨h, gap_independent_of_user_extraction provA provB
    exampleCompetitorDoc exampleUserDoc h⟩

/-- C5: an empty topic, or a user document under 50 characters after
stripping, fails validation with an InvalidInput error and causes no call to
the embedding model or the keyphrase extractor, regardless of the other
inputs (src/app.py lines 111-115). -/
theorem invalid_input_guard (P : Provider)
    (target_keyword my_content_final competitor_text : List Char)
    (h : target_keyword = [] ∨ (pyStrip my_content_final).length < 50) :
    (∃ e, run_audit P target_keyword my_content_final competitor_text =
      .error e) ∧
    audit_calls target_keyword my_content_final competitor_text = [] := by
  by_cases ht : target_keyword = []
  · constructor
    · exact ⟨.missingTopic, by unfold run_audit; rw [if_pos ht]⟩
    · unfold audit_calls; rw [if_pos ht]
  · have hm : (pyStrip my_content_final).length < 50 := h.resolve_left ht
    have hcond : my_content_final = [] ∨ (pyStrip my_content_final).length < 50 :=
      Or.inr hm
    constructor
    · exact ⟨.shortDocument, by unfold run_audit; rw [if_neg ht, if_pos hcond]⟩
    · unfold audit_calls; rw [if_neg ht, if_pos hcond]

/-- Witness for C5 at the spec's example document "short" (5 characters). -/
theorem invalid_input_guard_witness :
    ("seo".toList = ([] : List Char) ∨ (pyStrip "short".toList).length < 50) ∧
    (∃ e, run_audit (constProvider []) "seo".toList "short".toList [] =
      .error e) ∧
    audit_calls "seo".toList "short".toList [] = [] := by
  have h : "seo".toList = ([] : List Char) ∨
      (pyStrip "short".toList).length < 50 := Or.inr (by decide)
  exact ⟨h, invalid_input_guard (constProvider []) "seo".toList
    "short".toList [] h⟩

/-- C6: when the stored competitor text is empty, a valid audit returns a
result whose gap report is absent (`none`, distinguishable from an empty
report) while the relevance score and its band are still computed
(src/app.py lines 139-140 and 172-173). -/
theorem absent_competitor_absent_gap (P : Provider)
    (target_keyword my_content_final : List Char)
    (ht : target_keyword ≠ []) (hm : 50 ≤ (pyStrip my_content_final).length) :
    run_audit P target_keyword my_content_final [] =
      .ok ⟨score P target_keyword my_content_final,
           band (score P target_keyword my_content_final), none⟩ ∧
    (none : Option GapReport) ≠ some ⟨[], []⟩ := by
  have hcond : ¬(my_content_final = [] ∨
      (pyStrip my_content_final).length < 50) := by
    rintro (h | h)
    · subst h
      simp [pyStrip] at hm
    · omega
  refine ⟨?_, by simp⟩
  unfold run_audit
  rw [if_neg ht, if_neg hcond, if_pos rfl]

/-- Witness for C6 at a concrete topic and document. -/
theorem absent_competitor_absent_gap_witness :
    "seo".toList ≠ ([] : List Char) ∧
    50 ≤ (pyStrip exampleUserDoc).length ∧
    run_audit (constProvider []) "seo".toList exampleUserDoc [] =
      .ok ⟨score (constProvider []) "seo".toList exampleUserDoc,
           band (score (constProvider []) "seo".toList exampleUserDoc),
           none⟩ :=
  ⟨by decide, by decide,
   (absent_competitor_absent_gap (constProvider []) "seo".toList exampleUserDoc
     (by decide) (by decide)).1⟩

/-- C7: whenever the audit succeeds, the returned score is exactly the
provider's similarity of the embedding of the topic and the embedding of the
user document, with no further transform (src/app.py lines 119-121). -/
theorem score_is_embedding_similarity (P : Provider)
    (target_keyword my_content_final competitor_text : List Char)
    (r : AuditResult)
    (h : run_audit P target_keyword my_content_final competitor_text = .ok r) :
    r.score = P.similarity (P.encode target_keyword)
      (P.encode my_content_final) := by
  unfold run_audit at h
  by_cases ht : target_keyword = []
  · rw [if_pos ht] at h
    exact absurd h (by simp)
  · rw [if_neg ht] at h
    by_cases hm : my_content_final = [] ∨ (pyStrip my_content_final).length < 50
    · rw [if_pos hm] at h
      exact absurd h (by simp)
    · rw [if_neg hm] at h
      injection h with h2
      rw [← h2]
      rfl

/-- Witness for C7 at a concrete provider and inputs. -/
theorem score_is_embedding_similarity_witness :
    run_audit (constProvider []) "seo".toList exampleUserDoc [] =
      .ok ⟨0, ScoreBand.Low, none⟩ ∧
    (⟨0, ScoreBand.Low, none⟩ : AuditResult).score =
      (constProvider []).similarity
        ((constProvider []).encode "seo".toList)
        ((constProvider []).encode exampleUserDoc) := by
  have h : run_audit (constProvider []) "seo".toList exampleUserDoc [] =
      .ok ⟨0, ScoreBand.Low, none⟩ := by
    have h1 : "seo".toList ≠ ([] : List Char) := by decide
    have h2 : ¬(exampleUserDoc = [] ∨ (pyStrip exampleUserDoc).length < 50) := by
      decide
    unfold run_audit
    rw [if_neg h1, if_neg h2, if_pos rfl]
    norm_num [score, band, constProvider]
  exact ⟨h, score_is_embedding_similarity (constProvider []) "seo".toList
    exampleUserDoc [] ⟨0, ScoreBand.Low, none⟩ h⟩

/-- C8: the audit is deterministic: two runs with identical topic, user
document, competitor document and identical provider state give identical
results, the relevance score, band and gap report included. -/
theorem run_audit_deterministic (P Q : Provider)
    (t1 t2 mc1 mc2 ct1 ct2 : List Char)
    (hP : P = Q) (h1 : t1 = t2) (h2 : mc1 = mc2) (h3 : ct1 = ct2) :
    run_audit P t1 mc1 ct1 = run_audit Q t2 mc2 ct2 := by
  subst hP h1 h2 h3
  rfl

/-- Witness for C8 at concrete equal inputs. -/
theorem run_audit_deterministic_witness :
    constProvider [] = constProvider [] ∧
    run_audit (constProvider []) "seo".toList exampleUserDoc
        exampleCompetitorDoc =
      run_audit (constProvider []) "seo".toList exampleUserDoc
        exampleCompetitorDoc :=
  ⟨rfl, run_audit_deterministic (constProvider []) (constProvider [])
    "seo".toList "seo".toList exampleUserDoc exampleUserDoc
    exampleCompetitorDoc exampleCompetitorDoc rfl rfl rfl rfl⟩

/-- C9: empty input text short-circuits to an empty keyphrase sequence, and
when the competitor extraction yields no keyphrases the gap analysis still
proceeds, with zero-length missing and shared sequences (src/app.py lines
48-50, 146, 151, 169). -/
theorem extractor_degradation (P : Provider)
    (competitor_text my_content_final : List Char) (top_n : Nat)
    (h : extract_keywords P competitor_text 25 = []) :
    extract_keywords P [] top_n = [] ∧
    missing_kws P competitor_text my_content_final = [] ∧
    shared P competitor_text my_content_final = [] := by
  refine ⟨by simp [extract_keywords], ?_, ?_⟩ <;>
    simp [missing_kws, shared, comp_kws, h]

/-- Witness for C9 with an extractor that returns no keyphrases. -/
theorem extractor_degradation_witness :
    extract_keywords (constProvider []) "x".toList 25 = [] ∧
    (extract_keywords (constProvider []) [] 20 = [] ∧
     missing_kws (constProvider []) "x".toList exampleUserDoc = [] ∧
     shared (constProvider []) "x".toList exampleUserDoc = []) :=
  ⟨by decide, extractor_degradation (constProvider []) "x".toList
    exampleUserDoc 20 (by decide)⟩

/-- C10: a failed fetch returns `None`; the two fetch-button handlers leave
the stored texts unchanged when the fetch fails or returns empty text, and
only a successful non-empty fetch overwrites the corresponding field
(src/app.py lines 31-46, 68-75, 86-93). -/
theorem fetch_state_policy (err comp_url my_url text : List Char)
    (st : SessionState) (hu1 : comp_url ≠ []) (hu2 : my_url ≠ []) :
    fetch_url_content (.error err) = none ∧
    fetch_competitor_click comp_url (.error err) st = st ∧
    fetch_my_page_click my_url (.error err) st = st ∧
    fetch_competitor_click comp_url (.ok []) st = st ∧
    fetch_my_page_click my_url (.ok []) st = st ∧
    (text ≠ [] →
      fetch_competitor_click comp_url (.ok text) st =
        { st with competitor_text := text } ∧
      fetch_my_page_click my_url (.ok text) st =
        { st with my_text := text }) := by
  refine ⟨rfl, ?_, ?_, ?_, ?_, ?_⟩
  · simp [fetch_competitor_click, fetch_url_content, hu1]
  · simp [fetch_my_page_click, fetch_url_content, hu2]
  · simp [fetch_competitor_click, fetch_url_content, hu1]
  · simp [fetch_my_page_click, fetch_url_content, hu2]
  · intro ht
    constructor
    · simp [fetch_competitor_click, fetch_url_content, hu1, ht]
    · simp [fetch_my_page_click, fetch_url_content, hu2, ht]

/-- Witness for C10 at concrete urls, error, text and state. -/
theorem fetch_state_policy_witness :
    "u".toList ≠ ([] : List Char) ∧
    fetch_url_content (.error "boom".toList) = none ∧
    fetch_competitor_click "u".toList (.error "boom".toList) ⟨[], []⟩ =
      (⟨[], []⟩ : SessionState) ∧
    fetch_competitor_click "u".toList (.ok "hi".toList) ⟨[], []⟩ =
      (⟨[], "hi".toList⟩ : SessionState) := by
  have h := fetch_state_policy "boom".toList "u".toList "v".toList
    "hi".toList ⟨[], []⟩ (by decide) (by decide)
  exact ⟨by decide, h.1, h.2.1, (h.2.2.2.2.2 (by decide)).1⟩
